import Mathlib

/-!
Verification development for the 3speak upload service.

The definitions below are shallow embeddings of the JavaScript source:

* the status reconciler (`getStatusLabel`, `pollStatusUpdate`) from the
  frontend integration guide (`pollUntilPublished` / `pollVideoStatus`);
* the IPFS storage service (`getStorageStats`, `listPinnedFiles`,
  `unpinFiles`, `runGarbageCollection`) from `src/services/storage.js`;
* the health predicate of the storage routes from `src/routes/storage.js`;
* the age computation of the dashboard client (`calculateAge`, `canUnpin`)
  from `public/js/storage-client.js`;
* the `temp_uploads` TTL index from
  `scripts/setup-temp-uploads-collection.js`.

External effects (HTTP calls to the IPFS daemon, wall-clock reads) are
passed in explicitly: an `Except String _` value stands for the outcome of
one upstream call, and `now` parameters stand for `Date.now()` /
`new Date()` reads at the corresponding program point.
-/

namespace ThreeSpeak

/-- The video document statuses that appear in the source
(`uploaded`, `encoding_ipfs`, ..., `published`, `publish_manual`,
`failed`, `encoding_failed`). -/
inductive VideoStatus
  | uploaded
  | encoding_ipfs
  | encoding_preparing
  | encoding_progress
  | encoding_completed
  | published
  | publish_manual
  | failed
  | encoding_failed
  deriving DecidableEq, BEq, Repr

/-- The raw string of a video status, as stored in the document; the label
fallback `return video.status` returns this string. -/
def VideoStatus.toStr : VideoStatus → String
  | .uploaded => "uploaded"
  | .encoding_ipfs => "encoding_ipfs"
  | .encoding_preparing => "encoding_preparing"
  | .encoding_progress => "encoding_progress"
  | .encoding_completed => "encoding_completed"
  | .published => "published"
  | .publish_manual => "publish_manual"
  | .failed => "failed"
  | .encoding_failed => "encoding_failed"

/-- Encoding-job statuses reported by the external encoder. -/
inductive JobStatus
  | queued
  | running
  | complete
  | completed
  | failed
  | cancelled
  deriving DecidableEq, BEq, Repr

/-- Percent fields of `job.progress`, modelled as integer percents
(the label code rounds with `Math.round` before display). -/
structure JobProgress where
  pct : Nat
  download_pct : Nat
  deriving DecidableEq, BEq, Repr

/-- The encoding job object; `progress` may be absent
(the source reads it as `job.progress?.pct`). -/
structure Job where
  status : JobStatus
  progress : Option JobProgress
  deriving DecidableEq, BEq, Repr

/-- The video document, restricted to the field the reconciler reads. -/
structure Video where
  status : VideoStatus
  deriving DecidableEq, BEq, Repr

/-- Optional-chained job status comparison, as in `job?.status === "failed"`
(read with double quotes here): false when the job is absent. -/
def jobStatusIs (job : Option Job) (s : JobStatus) : Bool :=
  match job with
  | some j => j.status == s
  | none => false

/-- Reads `job.progress?.pct || 0`. -/
def jobPct (j : Job) : Nat :=
  match j.progress with
  | some p => p.pct
  | none => 0

/-- The `switch (job.status)` block of `getStatusLabel`: the three matched
cases return a label; any other job status falls through the switch
(`none`) to the fallback checks. -/
def jobSwitchLabel (job : Option Job) : Option String :=
  match job with
  | none => none
  | some j =>
    match j.status with
    | .queued => some "⏳ Queued for encoding..."
    | .running => some ("🔄 Encoding: " ++ toString (jobPct j) ++ "%")
    | .complete => some "✅ Encoding complete! Publishing..."
    | _ => none

/-- Translation of `getStatusLabel(video, job)` from the frontend
integration guide:
published check first, then failure, then the `uploaded` phase, then the
job switch, then the encoding-phase fallback, finally the raw status. -/
def getStatusLabel (video : Video) (job : Option Job) : String :=
  if video.status = .published ∨ video.status = .publish_manual then
    "🎉 Published to Hive!"
  else if video.status = .failed ∨ video.status = .encoding_failed ∨
      jobStatusIs job .failed = true then
    "❌ Encoding Failed"
  else if video.status = .uploaded then
    "⏳ Waiting for encoding..."
  else
    match jobSwitchLabel job with
    | some label => label
    | none =>
      if video.status = .encoding_ipfs ∨ video.status = .encoding_preparing ∨
          video.status = .encoding_progress then
        "🔄 Processing..."
      else
        video.status.toStr

/-- The record handed to `onUpdate` by `pollUntilPublished`; the polling
stop conditions of the loop are exactly `isComplete` and `isFailed`.
`pollVideoStatus` in the same document computes the identical fields. -/
structure PollUpdate where
  progress : Nat
  statusLabel : String
  isComplete : Bool
  isFailed : Bool
  deriving DecidableEq, BEq, Repr

/-- One reconciliation step of `pollUntilPublished` / `pollVideoStatus`:
`progress = job?.progress?.pct || 0`, `statusLabel = getStatusLabel`,
`isComplete` from the video status alone, `isFailed` from video status or a
failed job. -/
def pollStatusUpdate (video : Video) (job : Option Job) : PollUpdate :=
  { progress :=
      match job with
      | some j => jobPct j
      | none => 0
    statusLabel := getStatusLabel video job
    isComplete := video.status == .published || video.status == .publish_manual
    isFailed := video.status == .failed || video.status == .encoding_failed ||
      jobStatusIs job .failed }

/-- Output of `getDiskUsage()`: parsed `df` fields. All fields come from
`parseInt`, so they are integers. -/
structure DiskStats where
  total : Int
  used : Int
  available : Int
  percentUsed : Int
  deriving DecidableEq, Repr

/-- Output of `getRepoStats()` from the IPFS `repo/stat` endpoint. -/
structure RepoStats where
  repoSize : Int
  storageMax : Int
  numObjects : Int
  repoPath : String
  version : String
  deriving DecidableEq, Repr

/-- The `status` object computed inside `getStorageStats`. -/
structure StatusInfo where
  level : String
  color : String
  deriving DecidableEq, Repr

/-- The `ipfs` part of the `getStorageStats` result. `percentOfDisk` is
kept as an exact rational; the source formats it with `toFixed(2)` for
display only. -/
structure IpfsStats where
  repoSize : Int
  storageMax : Int
  numObjects : Int
  percentOfDisk : ℚ
  deriving DecidableEq, Repr

/-- The `getStorageStats` result (the `timestamp` field of the source is a
wall-clock read used for display only and is omitted). -/
structure StorageStats where
  disk : DiskStats
  ipfs : IpfsStats
  status : StatusInfo
  deriving DecidableEq, Repr

/-- Translation of `getStorageStats()` from `src/services/storage.js`, as a
pure function
of the two upstream snapshots. The source initialises
`status` to healthy/green and overwrites it under `percentUsed > 80`
(critical/red) or else `percentUsed > 60` (warning/yellow); that
assign-then-override chain is the if/else-if chain here. -/
def getStorageStats (repoStats : RepoStats) (diskStats : DiskStats) : StorageStats :=
  let percentOfDisk : ℚ := (repoStats.repoSize : ℚ) / (diskStats.total : ℚ) * 100
  let st : StatusInfo :=
    if diskStats.percentUsed > 80 then ⟨"critical", "red"⟩
    else if diskStats.percentUsed > 60 then ⟨"warning", "yellow"⟩
    else ⟨"healthy", "green"⟩
  { disk := diskStats
    ipfs :=
      { repoSize := repoStats.repoSize
        storageMax := repoStats.storageMax
        numObjects := repoStats.numObjects
        percentOfDisk := percentOfDisk }
    status := st }

/-- The `healthy` flag of `GET /api/storage/health` in
`src/routes/storage.js`: the check `stats.status.level !== critical`. -/
def storageHealthFlag (repoStats : RepoStats) (diskStats : DiskStats) : Bool :=
  (getStorageStats repoStats diskStats).status.level != "critical"

/-- One pin entry produced by `listPinnedFiles`. `timestamp` is the
millisecond value of the `new Date()` the source takes at the push. -/
structure PinEntry where
  cid : String
  pinType : String
  size : Nat
  timestamp : Nat
  deriving DecidableEq, Repr

/-- Translation of `listPinnedFiles()` from `src/services/storage.js`.
Here `pins` is the
`(cid, pinData.Type)` list from `pin/ls`; `stat` is the per-cid
`object/stat` call, returning the optional `CumulativeSize` on success;
`now` is the wall clock at this listing call (the source stamps every
entry with `new Date().toISOString()` taken during this very call). A
failed stat still pushes the entry, with `size = 0`. -/
def listPinnedFiles (stat : String → Except String (Option Nat)) (now : Nat) :
    List (String × String) → List PinEntry
  | [] => []
  | (cid, ptype) :: rest =>
    (match stat cid with
      | .ok sz => { cid := cid, pinType := ptype, size := sz.getD 0, timestamp := now }
      | .error _ => { cid := cid, pinType := ptype, size := 0, timestamp := now }) ::
      listPinnedFiles stat now rest

/-- The aggregate result object of `unpinFiles` (`skipped` is initialised
by the source and never filled). -/
structure UnpinResults where
  success : List String
  failed : List (String × String)
  skipped : List String
  deriving DecidableEq, Repr

/-- Translation of `unpinFiles(cids, force)` from `src/services/storage.js`.
Here `rm` is the
per-cid `pin/rm` HTTP call. Each iteration is wrapped in its own
try/catch: an rm failure appends `(cid, error.message)` to `failed` and
the loop continues. The `force` parameter only changes a log line; no age
check of any kind is performed. -/
def unpinFiles (rm : String → Except String Unit) (cids : List String)
    (force : Bool) : UnpinResults :=
  match cids with
  | [] => ⟨[], [], []⟩
  | cid :: rest =>
    let r := unpinFiles rm rest force
    match rm cid with
    | .ok _ => { r with success := cid :: r.success }
    | .error e => { r with failed := (cid, e) :: r.failed }

/-- Whether an upstream call succeeded. -/
def exceptOk {α : Type} : Except String α → Bool
  | .ok _ => true
  | .error _ => false

/-- The error message of a failed upstream call (empty on success; only
used at failing inputs). -/
def exceptErr {α : Type} : Except String α → String
  | .ok _ => ""
  | .error e => e

/-- The age record of `calculateAge(timestamp)` in
`public/js/storage-client.js` (`display` string omitted): millisecond
difference floored into hours, hours floored into days. `Math.floor` on a
JS number is floor division, `Int.fdiv` here. -/
structure AgeInfo where
  hours : Int
  days : Int
  deriving DecidableEq, Repr

/-- Translation of `calculateAge`: `diffMs = now - then`, `diffHours = floor(diffMs/3600000)`,
`diffDays = floor(diffHours/24)`. -/
def calculateAge (nowMs thenMs : Int) : AgeInfo :=
  let diffMs := nowMs - thenMs
  let diffHours := Int.fdiv diffMs 3600000
  let diffDays := Int.fdiv diffHours 24
  ⟨diffHours, diffDays⟩

/-- The unpin gate of the dashboard in `displayPinnedFiles`:
`canUnpin = age.hours >= 24`; rows failing it render their checkbox and
Unpin button `disabled`. -/
def canUnpin (nowMs thenMs : Int) : Bool :=
  (calculateAge nowMs thenMs).hours ≥ 24

/-- The result object of `runGarbageCollection`. -/
structure GCResult where
  success : Bool
  spaceFreed : Int
  beforeSize : Int
  afterSize : Int
  duration : Nat
  deriving DecidableEq, Repr

/-- Translation of `runGarbageCollection()` from `src/services/storage.js`:
`getRepoStats()` before, the `repo/gc` call, `getRepoStats()` after;
`spaceFreed = beforeStats.repoSize - afterStats.repoSize` (raw
difference, no clamping); `duration = Date.now() - startTime`. Any
upstream failure is rethrown wrapped as
with the prefixed message `Failed to run garbage collection: ...`. -/
def runGarbageCollection (beforeStats : Except String RepoStats)
    (gc : Except String Unit) (afterStats : Except String RepoStats)
    (startTime endTime : Nat) : Except String GCResult :=
  match beforeStats with
  | .error e => .error ("Failed to run garbage collection: " ++ e)
  | .ok b =>
    match gc with
    | .error e => .error ("Failed to run garbage collection: " ++ e)
    | .ok _ =>
      match afterStats with
      | .error e => .error ("Failed to run garbage collection: " ++ e)
      | .ok a =>
        .ok { success := true
              spaceFreed := b.repoSize - a.repoSize
              beforeSize := b.repoSize
              afterSize := a.repoSize
              duration := endTime - startTime }

/-- A `temp_uploads` document, with the fields the setup script indexes
(`scripts/setup-temp-uploads-collection.js`). Timestamps are milliseconds. -/
structure UploadSession where
  upload_id : String
  owner : String
  created : Nat
  tus_completed : Bool
  finalized : Bool
  video_id : Option String
  expires : Nat
  deriving DecidableEq, Repr

/-- The `expires_ttl` index created by the setup script:
`{ expires: 1 }` with `expireAfterSeconds: 0` and no partial filter.
`filterFinalized = none` records that the index restricts on no
`finalized` value. -/
structure TtlIndexSpec where
  keyField : String
  expireAfterSeconds : Nat
  filterFinalized : Option Bool
  deriving DecidableEq, Repr

/-- The concrete index the script creates. -/
def expiresTtlIndex : TtlIndexSpec :=
  { keyField := "expires", expireAfterSeconds := 0, filterFinalized := none }

/-- Eligibility of a session for TTL auto-deletion, per the documentation the
setup script itself gives for the index ("MongoDB will automatically delete
documents where expires < current_time"), generalised over the index
spec: the indexed date plus `expireAfterSeconds` must be in the past, and
the document must match the index filter (no filter matches everything). -/
def ttlEligible (idx : TtlIndexSpec) (now : Nat) (s : UploadSession) : Bool :=
  decide (s.expires + idx.expireAfterSeconds * 1000 < now) &&
    (match idx.filterFinalized with
      | none => true
      | some b => s.finalized == b)

/-- A cid → rm-call oracle on which every unpin succeeds (a reachable IPFS
daemon holding the pins). -/
def rmAllOk : String → Except String Unit := fun _ => .ok ()

/-- A cid → stat oracle that fails on every cid. -/
def statAllFail : String → Except String (Option Nat) := fun _ => .error "stat failed"

/-- A cid → stat oracle that succeeds with cumulative size 1. -/
def statAllOk1 : String → Except String (Option Nat) := fun _ => .ok (some 1)

/-- A repo-stat snapshot of a given size (other fields fixed). -/
def repoSnap (size : Int) : RepoStats :=
  { repoSize := size, storageMax := 10000000000, numObjects := 5
    repoPath := "/data/ipfs", version := "fs-repo@12" }

/-- A disk snapshot with a given integer percentUsed (other fields fixed). -/
def diskSnap (p : Int) : DiskStats :=
  { total := 1000000000, used := 400000000, available := 600000000, percentUsed := p }

end ThreeSpeak

namespace ThreeSpeak

/-- C1: for a published (or publish_manual) video the reconciler reports
`isComplete = true` and the terminal success label, for every job state —
including a job still reporting `failed`. -/
theorem published_always_complete (job : Option Job) :
    ((pollStatusUpdate ⟨.published⟩ job).isComplete = true ∧
      getStatusLabel ⟨.published⟩ job = "🎉 Published to Hive!") ∧
    ((pollStatusUpdate ⟨.publish_manual⟩ job).isComplete = true ∧
      getStatusLabel ⟨.publish_manual⟩ job = "🎉 Published to Hive!") := by
  refine ⟨⟨rfl, ?_⟩, ⟨rfl, ?_⟩⟩ <;> simp [getStatusLabel]

/-- C2: a job reporting `complete` while the video document still says
`encoding_ipfs` is not the pipeline being done: `isComplete = false`, and
the label says publishing is still pending. -/
theorem job_complete_not_done (p : Option JobProgress) :
    (pollStatusUpdate ⟨.encoding_ipfs⟩ (some ⟨.complete, p⟩)).isComplete = false ∧
    getStatusLabel ⟨.encoding_ipfs⟩ (some ⟨.complete, p⟩) =
      "✅ Encoding complete! Publishing..." := by
  exact ⟨rfl, by simp [getStatusLabel, jobStatusIs, jobSwitchLabel]; rfl⟩

theorem unpinFiles_success_eq (rm : String → Except String Unit)
    (cids : List String) (force : Bool) :
    (unpinFiles rm cids force).success = cids.filter (fun c => exceptOk (rm c)) := by
  induction cids with
  | nil => rfl
  | cons a rest ih =>
    cases h : rm a <;> simp [unpinFiles, h, List.filter, exceptOk, ih]

theorem unpinFiles_failed_eq (rm : String → Except String Unit)
    (cids : List String) (force : Bool) :
    (unpinFiles rm cids force).failed =
      (cids.filter (fun c => !exceptOk (rm c))).map (fun c => (c, exceptErr (rm c))) := by
  induction cids with
  | nil => rfl
  | cons a rest ih =>
    cases h : rm a <;> simp [unpinFiles, h, List.filter, exceptOk, exceptErr, ih]

theorem count_filter_add_count_not (p : String → Bool) (l : List String) (c : String) :
    (l.filter p).count c + (l.filter (fun x => !p x)).count c = l.count c := by
  induction l with
  | nil => rfl
  | cons a t ih =>
    by_cases h : p a <;>
      simp [List.filter, h, List.count_cons] <;> omega

/-- C4: `unpinFiles` never throws and partitions its input: the successes
are exactly the cids whose rm call succeeded (in order), the failures are
exactly the cids whose rm call failed, paired with their error message,
and every requested cid is accounted for exactly once across the two
lists. In particular the outcome recorded for each cid depends only on
its own rm call, so one failure never stops the rest of the batch. -/
theorem unpinFiles_partitions_batch (rm : String → Except String Unit)
    (cids : List String) (force : Bool) :
    (unpinFiles rm cids force).success = cids.filter (fun c => exceptOk (rm c)) ∧
    (unpinFiles rm cids force).failed =
      (cids.filter (fun c => !exceptOk (rm c))).map (fun c => (c, exceptErr (rm c))) ∧
    ∀ c, (unpinFiles rm cids force).success.count c +
        ((unpinFiles rm cids force).failed.map Prod.fst).count c = cids.count c := by
  refine ⟨unpinFiles_success_eq rm cids force, unpinFiles_failed_eq rm cids force, ?_⟩
  intro c
  rw [unpinFiles_success_eq, unpinFiles_failed_eq, List.map_map]
  have hfst : (Prod.fst ∘ fun c => (c, exceptErr (rm c))) = id := rfl
  rw [hfst, List.map_id]
  exact count_filter_add_count_not _ cids c

/-- C3 counterexample: a pin first observed one second ago — age zero
hours, far under the 24-hour window — is still removed by `unpinFiles`
with `force = false`: the cid lands in `success` and nothing is refused
or skipped. `unpinFiles` performs no age check at all. -/
theorem unpinFiles_removes_young_pin :
    (calculateAge 1000 0).hours < 24 ∧
    unpinFiles rmAllOk ["QmYoungPin"] false =
      { success := ["QmYoungPin"], failed := [], skipped := [] } := by
  exact ⟨by decide, rfl⟩

/-- C3 amended: the 24-hour rule is not enforced by `unpinFiles` — its
result is entirely independent of `force` (and of any pin age, which it
never receives) — it is enforced only by the dashboard UI layer, whose
`canUnpin` gate is false for every pin whose recorded timestamp is less
than 24 hours old, disabling the unpin controls. -/
theorem unpin_age_gate_is_ui_only :
    (∀ (rm : String → Except String Unit) (cids : List String) (f g : Bool),
      unpinFiles rm cids f = unpinFiles rm cids g) ∧
    (∀ nowMs thenMs : Int, 0 ≤ nowMs - thenMs →
      nowMs - thenMs < 24 * 3600000 → canUnpin nowMs thenMs = false) := by
  constructor
  · intro rm cids f g
    induction cids with
    | nil => rfl
    | cons a rest ih => cases h : rm a <;> simp [unpinFiles, h, ih]
  · intro nowMs thenMs h0 h24
    have hlt : Int.fdiv (nowMs - thenMs) 3600000 < 24 := by
      rw [Int.fdiv_eq_ediv _ (by norm_num)]
      omega
    simp only [canUnpin, calculateAge, ge_iff_le, decide_eq_false_iff_not, not_le]
    exact hlt

theorem unpin_age_gate_is_ui_only_witness :
    unpinFiles rmAllOk ["QmA"] false = unpinFiles rmAllOk ["QmA"] true ∧
    canUnpin 3600000 0 = false :=
  ⟨unpin_age_gate_is_ui_only.1 rmAllOk ["QmA"] false true,
    unpin_age_gate_is_ui_only.2 3600000 0 (by decide) (by decide)⟩

theorem getStorageStats_status (r : RepoStats) (d : DiskStats) :
    (getStorageStats r d).status =
      if d.percentUsed > 80 then ⟨"critical", "red"⟩
      else if d.percentUsed > 60 then ⟨"warning", "yellow"⟩
      else ⟨"healthy", "green"⟩ := rfl

/-- C5: the health classification of `getStorageStats` is exactly the
three-tier contract: percentUsed at most 60 is healthy/green, 61 through
80 is warning/yellow, and above 80 is critical/red. -/
theorem storage_health_classification (r : RepoStats) (d : DiskStats) :
    (d.percentUsed ≤ 60 → (getStorageStats r d).status = ⟨"healthy", "green"⟩) ∧
    (61 ≤ d.percentUsed ∧ d.percentUsed ≤ 80 →
      (getStorageStats r d).status = ⟨"warning", "yellow"⟩) ∧
    (80 < d.percentUsed → (getStorageStats r d).status = ⟨"critical", "red"⟩) := by
  rw [getStorageStats_status]
  refine ⟨fun h => ?_, fun h => ?_, fun h => ?_⟩ <;>
    · split_ifs <;> first | rfl | omega

theorem storage_health_classification_witness :
    (getStorageStats (repoSnap 100) (diskSnap 60)).status = ⟨"healthy", "green"⟩ ∧
    (getStorageStats (repoSnap 100) (diskSnap 61)).status = ⟨"warning", "yellow"⟩ ∧
    (getStorageStats (repoSnap 100) (diskSnap 80)).status = ⟨"warning", "yellow"⟩ ∧
    (getStorageStats (repoSnap 100) (diskSnap 81)).status = ⟨"critical", "red"⟩ :=
  ⟨(storage_health_classification (repoSnap 100) (diskSnap 60)).1 (by decide),
    (storage_health_classification (repoSnap 100) (diskSnap 61)).2.1 (by decide),
    (storage_health_classification (repoSnap 100) (diskSnap 80)).2.1 (by decide),
    (storage_health_classification (repoSnap 100) (diskSnap 81)).2.2 (by decide)⟩

/-- C6: the source stamps every pin entry with the wall clock of the
listing call itself, so the same still-pinned cid listed one hour apart
reports two different timestamps; the approximation is not held stable,
and the derived age restarts from zero at every listing. -/
theorem listPinnedFiles_timestamp_not_stable :
    (listPinnedFiles statAllOk1 0 [("QmPin", "recursive")]).map PinEntry.timestamp
      = [0] ∧
    (listPinnedFiles statAllOk1 3600000 [("QmPin", "recursive")]).map PinEntry.timestamp
      = [3600000] :=
  ⟨rfl, rfl⟩

/-- C7: `listPinnedFiles` lists every recursively-pinned cid exactly as
enumerated, and a cid whose stat call fails is still listed, with size
defaulted to 0 — a stat failure never drops the pin and never aborts the
listing. -/
theorem listPinnedFiles_never_drops (stat : String → Except String (Option Nat))
    (now : Nat) (pins : List (String × String)) :
    (listPinnedFiles stat now pins).map PinEntry.cid = pins.map Prod.fst ∧
    (∀ cid ptype, (cid, ptype) ∈ pins → exceptOk (stat cid) = false →
      ({ cid := cid, pinType := ptype, size := 0, timestamp := now } : PinEntry) ∈
        listPinnedFiles stat now pins) := by
  induction pins with
  | nil => exact ⟨rfl, by simp⟩
  | cons p rest ih =>
    obtain ⟨c, t⟩ := p
    obtain ⟨ih1, ih2⟩ := ih
    constructor
    · cases h : stat c <;> simp [listPinnedFiles, h, ih1]
    · intro cid ptype hmem hfail
      rcases List.mem_cons.mp hmem with heq | hmem2
      · obtain ⟨rfl, rfl⟩ := Prod.mk.injEq .. ▸ heq
        cases h : stat cid with
        | ok v => rw [h] at hfail; simp [exceptOk] at hfail
        | error e => simp [listPinnedFiles, h]
      · have := ih2 cid ptype hmem2 hfail
        cases h : stat c <;> simp [listPinnedFiles, h] <;> right <;> exact this

theorem listPinnedFiles_never_drops_witness :
    ({ cid := "QmX", pinType := "recursive", size := 0, timestamp := 5 } : PinEntry) ∈
      listPinnedFiles statAllFail 5 [("QmX", "recursive")] :=
  (listPinnedFiles_never_drops statAllFail 5 [("QmX", "recursive")]).2
    "QmX" "recursive" (by simp) rfl

/-- C8 counterexample: with before-size 100 and after-size 150 the GC call
still succeeds and reports `spaceFreed = -50` — the raw negative
difference is returned as-is; no clamping happens anywhere in
`runGarbageCollection`. -/
theorem runGC_reports_unclamped_negative :
    runGarbageCollection (.ok (repoSnap 100)) (.ok ()) (.ok (repoSnap 150)) 0 5 =
      .ok { success := true, spaceFreed := -50, beforeSize := 100,
            afterSize := 150, duration := 5 } ∧
    (-50 : Int) < 0 := by
  constructor
  · show Except.ok _ = Except.ok _
    norm_num [repoSnap]
  · decide

/-- C8 amended: `runGarbageCollection` reports `spaceFreed` as the raw
difference before minus after (possibly zero or negative — returned
unchanged, neither clamped nor treated as an error) together with the
wall-clock duration, and the operation fails exactly when one of the
upstream calls (stat before, GC, stat after) fails. -/
theorem runGC_raw_difference_and_failure (b a : RepoStats)
    (e1 : Except String RepoStats) (e2 : Except String Unit)
    (e3 : Except String RepoStats) (t0 t1 : Nat) :
    runGarbageCollection (.ok b) (.ok ()) (.ok a) t0 t1 =
      .ok { success := true, spaceFreed := b.repoSize - a.repoSize,
            beforeSize := b.repoSize, afterSize := a.repoSize,
            duration := t1 - t0 } ∧
    exceptOk (runGarbageCollection e1 e2 e3 t0 t1) =
      (exceptOk e1 && exceptOk e2 && exceptOk e3) := by
  constructor
  · rfl
  · cases e1 <;> cases e2 <;> cases e3 <;> rfl

/-- C9 counterexample: a session with `finalized = true` whose `expires`
lies in the past is eligible for TTL auto-deletion: the `expires_ttl`
index reads only `expires` and carries no filter on `finalized`. -/
theorem ttl_deletes_finalized_session :
    expiresTtlIndex.filterFinalized = none ∧
    ttlEligible expiresTtlIndex 1
      { upload_id := "u1", owner := "alice", created := 0, tus_completed := true,
        finalized := true, video_id := some "v1", expires := 0 } = true :=
  ⟨rfl, rfl⟩

/-- C9 amended: eligibility for auto-deletion under the `expires_ttl`
index depends only on `expires`: a session is eligible exactly when
`expires < now`, and flipping `finalized` never changes eligibility. -/
theorem ttl_eligibility_ignores_finalized (now : Nat) (s : UploadSession) :
    ttlEligible expiresTtlIndex now s = decide (s.expires < now) ∧
    ttlEligible expiresTtlIndex now { s with finalized := true } =
      ttlEligible expiresTtlIndex now { s with finalized := false } := by
  constructor <;> simp [ttlEligible, expiresTtlIndex]

/-- C10: the health endpoint reports `healthy = true` exactly when the
classified level is not critical, which holds exactly for
`percentUsed ≤ 80` (healthy and warning alike) and fails for
`percentUsed > 80`. -/
theorem storage_health_flag_iff (r : RepoStats) (d : DiskStats) :
    storageHealthFlag r d = decide (d.percentUsed ≤ 80) := by
  rw [storageHealthFlag, getStorageStats_status]
  by_cases h : d.percentUsed ≤ 80
  · rw [if_neg (by omega), decide_eq_true h]
    by_cases h2 : d.percentUsed > 60
    · rw [if_pos h2]; decide
    · rw [if_neg h2]; decide
  · rw [if_pos (by omega), decide_eq_false h]; decide

end ThreeSpeak
